import Mathlib

/-!
# SVA-Terminal biometric matching core: a shallow embedding

Embeds the deterministic core of the SVA-Terminal biometric engine
(`fingerprint_utils.py`, `face_recognition_utils.py`, `biometric_utils.py`,
`biometric.py`, `biometric_enhanced.py`) in Lean 4 and settles the frozen
claims about it.

Modelling conventions:
* Python floats are modelled as exact rationals `ℚ`; `np.sqrt d <= t`
  (with `d, t ≥ 0`) is embedded as the equivalent `d ≤ t * t` where the
  comparison is all the code uses of the root.
* Where the code calls `np.linalg.norm` and then branches on the value,
  the square root is kept as an explicit function parameter `sqrt : ℚ → ℚ`
  so the branch structure of the source is preserved verbatim.
* Python lists become `List`, dicts with fixed keys become structures,
  `None`-returning functions return `Option`.
-/

namespace SVA

/-- The `type` field of a minutia point: `np.random.choice(['ridge_ending',
'bifurcation'])` in the source; a two-valued enum. -/
inductive MinutiaType where
  | ridge_ending
  | bifurcation
deriving DecidableEq

/-- One minutiae point, `{'x': .., 'y': .., 'angle': .., 'type': ..,
'quality': ..}` in `fingerprint_utils.py`. -/
structure MinutiaPoint where
  x : ℚ
  y : ℚ
  angle : ℚ
  type : MinutiaType
  quality : ℚ
deriving DecidableEq

/-- The body of the inner-loop test of `_calculate_minutiae_similarity`
(`fingerprint_utils.py` lines 379-395): spatial distance within
`tolerance = 10.0` (embedded as squared distance `≤ 10 * 10`), circular
angular difference `min(|Δangle|, 360 - |Δangle|)` within
`angle_tolerance = 30.0`, and identical `type`. -/
def minutiaeMatch (p1 p2 : MinutiaPoint) : Bool :=
  let dx := p1.x - p2.x
  let dy := p1.y - p2.y
  let distSq := dx * dx + dy * dy
  let ad := |p1.angle - p2.angle|
  let angle_diff := min ad (360 - ad)
  decide (distSq ≤ 10 * 10) && decide (angle_diff ≤ 30) && decide (p1.type = p2.type)

/-- `_calculate_minutiae_similarity` (`fingerprint_utils.py` lines 365-403).
The outer loop walks `points1`; the inner loop walks `points2` and `break`s
at the first point satisfying `minutiaeMatch` (the source never marks a
`points2` point as consumed, so the same point may serve several `points1`
points); the count (Python variable `matches`, here `nMatches` since
`matches` is reserved) is divided by `min(len(points1), len(points2))`. -/
def calculate_minutiae_similarity (points1 points2 : List MinutiaPoint) : ℚ :=
  if points1 = [] ∨ points2 = [] then 0
  else
    let nMatches : ℕ := points1.foldl
      (fun acc p1 =>
        match points2.find? (fun p2 => minutiaeMatch p1 p2) with
        | some _ => acc + 1
        | none => acc) 0
    let max_possible_matches := min points1.length points2.length
    if max_possible_matches = 0 then 0
    else (nMatches : ℚ) / (max_possible_matches : ℚ)

/-- A fingerprint template, `{'minutiae_points': .., 'quality_score': ..,
'extraction_timestamp': .., 'template_version': ..}` with the optional
`combined_from` provenance count added by `_combine_templates`. -/
structure FingerprintTemplate where
  minutiae_points : List MinutiaPoint
  quality_score : ℚ
  extraction_timestamp : String
  template_version : String
  combined_from : Option Nat
deriving DecidableEq

/-- Result dictionary of the two comparison entry points: keys `success`,
`similarity`, `match` (called `matched` here since `match` is reserved),
and for fingerprints `matched_points`. -/
structure FPCompareResult where
  success : Bool
  similarity : ℚ
  matched : Bool
  matched_points : ℤ
deriving DecidableEq

/-- `compare_fingerprint_templates` (`fingerprint_utils.py` lines 147-200).
`if not template1 or not template2` rejects missing templates; empty
minutiae lists on either side are the reported-failure branch; otherwise
`match = similarity > threshold` and
`matched_points = int(similarity * min(len1, len2))` (the argument is
nonnegative, so Python `int` truncation is the floor). -/
def compare_fingerprint_templates (template1 template2 : Option FingerprintTemplate)
    (threshold : ℚ) : FPCompareResult :=
  match template1, template2 with
  | some t1, some t2 =>
    let points1 := t1.minutiae_points
    let points2 := t2.minutiae_points
    if points1 = [] ∨ points2 = [] then ⟨false, 0, false, 0⟩
    else
      let similarity := calculate_minutiae_similarity points1 points2
      ⟨true, similarity, decide (similarity > threshold),
        ⌊similarity * ((min points1.length points2.length : ℕ) : ℚ)⌋⟩
  | _, _ => ⟨false, 0, false, 0⟩

/-! ## Face encodings -/

/-- `np.dot` of two encodings, `compare_face_encodings` line 279. -/
def dotProduct (e1 e2 : List ℚ) : ℚ := (List.zipWith (fun a b => a * b) e1 e2).sum

/-- Sum of squares of an encoding: `np.linalg.norm(enc)` is the real square
root of this value. -/
def sumSq (e : List ℚ) : ℚ := (e.map (fun a => a * a)).sum

/-- Result dictionary of `compare_face_encodings`: keys `success`,
`similarity`, `match` (named `matched` here). -/
structure FaceCompareResult where
  success : Bool
  similarity : ℚ
  matched : Bool
deriving DecidableEq

/-- `compare_face_encodings` (`face_recognition_utils.py` lines 253-298),
parametrised by the square-root function used for `np.linalg.norm`
(`norm enc = sqrt (sumSq enc)`).  `if not encoding1 or not encoding2`
is the empty-list test; a zero norm on either side sets the raw cosine to
`0.0`; the raw value is then remapped by `(similarity + 1) / 2`
unconditionally, and `match = similarity > threshold`. -/
def compare_face_encodings (sqrt : ℚ → ℚ) (encoding1 encoding2 : List ℚ)
    (threshold : ℚ) : FaceCompareResult :=
  if encoding1 = [] ∨ encoding2 = [] then ⟨false, 0, false⟩
  else
    let dot_product := dotProduct encoding1 encoding2
    let norm1 := sqrt (sumSq encoding1)
    let norm2 := sqrt (sumSq encoding2)
    let raw := if norm1 = 0 ∨ norm2 = 0 then 0 else dot_product / (norm1 * norm2)
    let similarity := (raw + 1) / 2
    ⟨true, similarity, decide (similarity > threshold)⟩

/-- An integer-valued square root on the rationals, agreeing with the real
square root on the perfect-square naturals (`0`, `1`, `4`, ...) that occur
in the concrete inputs below. -/
def intSqrt (q : ℚ) : ℚ := ((Nat.sqrt q.num.toNat : ℕ) : ℚ)

/-! ## Overall verification status -/

/-- The status aggregation of `verify_student`
(`biometric_enhanced.py` lines 334-346): the explicit four-branch cascade
over the two modality booleans. -/
def verify_student_status (face_verified fingerprint_verified : Bool) : String :=
  if face_verified && fingerprint_verified then "approved"
  else if face_verified && !fingerprint_verified then "partial"
  else if !face_verified && fingerprint_verified then "partial"
  else "rejected"

/-- The status aggregation of `verify_student_biometrics`
(`biometric.py` lines 286-304): `and` gives approved, `or` gives partial,
otherwise rejected. -/
def overall_status (face_verified fingerprint_verified : Bool) : String :=
  if face_verified && fingerprint_verified then "approved"
  else if face_verified || fingerprint_verified then "partial"
  else "rejected"

/-! ## Minutiae deduplication and template fusion -/

/-- The duplicate test of `_remove_duplicate_minutiae`
(`fingerprint_utils.py` lines 444-448): spatial distance within
`tolerance = 5.0`, embedded as squared distance `≤ 5 * 5`. -/
def isNearDuplicate (point u : MinutiaPoint) : Bool :=
  let dx := point.x - u.x
  let dy := point.y - u.y
  decide (dx * dx + dy * dy ≤ 5 * 5)

/-- `_remove_duplicate_minutiae` (`fingerprint_utils.py` lines 433-459).
Walks the input, keeping a `unique_points` accumulator; for each point the
inner loop `break`s at the first accumulated point within tolerance
(`List.find?`); if that point has strictly lower `quality` it is removed
(`list.remove` removes the first equal element, as does `List.erase`) and
the new point is appended, otherwise the new point is dropped; with no
nearby point the new point is appended. -/
def remove_duplicate_minutiae (points : List MinutiaPoint) : List MinutiaPoint :=
  points.foldl
    (fun unique_points point =>
      match unique_points.find? (fun u => isNearDuplicate point u) with
      | some u =>
        if point.quality > u.quality then (unique_points.erase u) ++ [point]
        else unique_points
      | none => unique_points ++ [point]) []

/-- `_combine_templates` (`fingerprint_utils.py` lines 405-431).  The empty
Python dict returned for `[]` is modelled as an all-default template; a
singleton list returns its element unchanged; otherwise all minutiae are
concatenated, deduplicated, and the mean `quality_score` is taken.  The
`datetime.now()` timestamp written in the merge branch is the explicit
`now` parameter. -/
def combine_templates (now : String) (templates : List FingerprintTemplate) :
    FingerprintTemplate :=
  match templates with
  | [] => ⟨[], 0, "", "", none⟩
  | [t] => t
  | ts =>
    let all_points := (ts.map (fun t => t.minutiae_points)).flatten
    let unique_points := remove_duplicate_minutiae all_points
    let quality_scores := ts.map (fun t => t.quality_score)
    let combined_quality := quality_scores.sum / (quality_scores.length : ℚ)
    ⟨unique_points, combined_quality, now, "1.0", some ts.length⟩

/-! ## Enrollment loops

`capture_fingerprint_image` / `capture_face_from_camera` and the extraction
steps talk to hardware (and randomised mocks); each iteration's outcome is
therefore an explicit input `outcome : ℕ → ..SampleOutcome`, quantifying
over every possible sequence of capture/extract results. -/

/-- Outcome of one fingerprint sample iteration in `enroll_fingerprint`:
capture failure (`capture_result['success']` false, carrying the error
string), extraction failure (`extract_fingerprint_template` returns
`None`), or a successfully extracted template. -/
inductive FPSampleOutcome where
  | captureFail (err : String)
  | extractFail
  | ok (template : FingerprintTemplate)

/-- Whether a fingerprint sample iteration succeeded. -/
def FPSampleOutcome.isOk : FPSampleOutcome → Bool
  | .ok _ => true
  | _ => false

/-- The sample loop of `enroll_fingerprint` (`fingerprint_utils.py` lines
214-242): on the first failing sample the whole call returns the failure
(the `templates` accumulated so far are local and discarded); otherwise
each extracted template is appended. -/
def enroll_fingerprint_loop (outcome : ℕ → FPSampleOutcome) (num_samples i : ℕ)
    (templates : List FingerprintTemplate) : Except String (List FingerprintTemplate) :=
  if _h : i < num_samples then
    match outcome i with
    | .captureFail e => .error ("Failed to capture sample " ++ toString (i + 1) ++ ": " ++ e)
    | .extractFail => .error ("Failed to extract template from sample " ++ toString (i + 1))
    | .ok t => enroll_fingerprint_loop outcome num_samples (i + 1) (templates ++ [t])
  else .ok templates
termination_by num_samples - i
decreasing_by omega

/-- Result dictionary of `enroll_fingerprint`: the success dict carries the
fused template under `fingerprint_template`; the failure dicts carry no
such key (`none`) and an `error` string. -/
structure EnrollFPResult where
  success : Bool
  fingerprint_template : Option FingerprintTemplate
  error : Option String

/-- `enroll_fingerprint` (`fingerprint_utils.py` lines 202-260): run the
sample loop; on failure return a no-template failure dict, on success fuse
the collected templates with `_combine_templates`. -/
def enroll_fingerprint (now : String) (outcome : ℕ → FPSampleOutcome)
    (num_samples : ℕ) : EnrollFPResult :=
  match enroll_fingerprint_loop outcome num_samples 0 [] with
  | .error e => ⟨false, none, some e⟩
  | .ok templates => ⟨true, some (combine_templates now templates), none⟩

/-- Outcome of one face sample iteration in `enroll_face`: capture failure,
`extract_face_encoding` returning `None`, or an extracted encoding. -/
inductive FaceSampleOutcome where
  | captureFail (err : String)
  | extractFail
  | ok (encoding : List ℚ)

/-- Whether a face sample iteration succeeded. -/
def FaceSampleOutcome.isOk : FaceSampleOutcome → Bool
  | .ok _ => true
  | _ => false

/-- The sample loop of `enroll_face` (`face_recognition_utils.py` lines
321-349), in the same shape as the fingerprint loop. -/
def enroll_face_loop (outcome : ℕ → FaceSampleOutcome) (num_samples i : ℕ)
    (encodings : List (List ℚ)) : Except String (List (List ℚ)) :=
  if _h : i < num_samples then
    match outcome i with
    | .captureFail e => .error ("Failed to capture sample " ++ toString (i + 1) ++ ": " ++ e)
    | .extractFail => .error ("Failed to extract face encoding from sample " ++ toString (i + 1))
    | .ok enc => enroll_face_loop outcome num_samples (i + 1) (encodings ++ [enc])
  else .ok encodings
termination_by num_samples - i
decreasing_by omega

/-- `np.mean(encodings, axis=0).tolist()` for a rectangular list of
encodings (all samples have length 128 by `extract_face_encoding`):
element-wise mean. -/
def mean_encoding (encodings : List (List ℚ)) : List ℚ :=
  match encodings with
  | [] => []
  | e :: _ =>
    (List.range e.length).map (fun j =>
      (encodings.map (fun enc => enc.getD j 0)).sum / (encodings.length : ℚ))

/-- Result dictionary of `enroll_face`: the success dict carries the
averaged encoding under `face_encoding`; failure dicts carry none. -/
structure EnrollFaceResult where
  success : Bool
  face_encoding : Option (List ℚ)
  error : Option String

/-- `enroll_face` (`face_recognition_utils.py` lines 309-367). -/
def enroll_face (outcome : ℕ → FaceSampleOutcome) (num_samples : ℕ) :
    EnrollFaceResult :=
  match enroll_face_loop outcome num_samples 0 [] with
  | .error e => ⟨false, none, some e⟩
  | .ok encodings => ⟨true, some (mean_encoding encodings), none⟩

/-! ## Face encoding extraction -/

/-- The `key_landmarks` index list of `extract_face_encoding`
(`face_recognition_utils.py` lines 219-228). -/
def key_landmarks : List ℕ :=
  [10, 338, 297, 332, 284, 251, 389, 356, 454, 323, 361, 288,
   33, 7, 163, 144, 145, 153, 154, 155, 133, 173, 157, 158, 159, 160, 161, 246,
   1, 2, 5, 4, 6, 19, 94, 168, 8, 9, 10, 151,
   12, 15, 16, 17, 18, 200, 199, 175, 0, 13, 14, 269, 270, 267, 271, 272]

/-- The raw-encoding loop of `extract_face_encoding` (lines 231-234): for
each key index present in the detected landmark list, append that
landmark's `(x, y, z)`. -/
def build_raw_encoding (landmarks : List (ℚ × ℚ × ℚ)) : List ℚ :=
  key_landmarks.foldl
    (fun encoding idx =>
      match landmarks[idx]? with
      | some lm => encoding ++ [lm.1, lm.2.1, lm.2.2]
      | none => encoding) []

/-- The length normalisation of `extract_face_encoding` (lines 236-242):
truncate to `target_length = 128` when longer, zero-pad when shorter. -/
def normalize_encoding_length (encoding : List ℚ) : List ℚ :=
  let target_length := 128
  if encoding.length > target_length then encoding.take target_length
  else if encoding.length < target_length then
    encoding ++ List.replicate (target_length - encoding.length) 0
  else encoding

/-- `extract_face_encoding` (`face_recognition_utils.py` lines 182-251),
after the external image decode and MediaPipe mesh: the input is the
detected landmark list when `results.multi_face_landmarks` is non-empty
and `none` otherwise (the `None`-returning branch). -/
def extract_face_encoding (face_landmarks : Option (List (ℚ × ℚ × ℚ))) :
    Option (List ℚ) :=
  match face_landmarks with
  | none => none
  | some landmarks => some (normalize_encoding_length (build_raw_encoding landmarks))

/-! ## Base64 and template serialisation (`biometric_utils.py`)

`base64.b64encode` / `b64decode` and `json.dumps` / `json.loads` are
Python standard-library collaborators.  Base64 is embedded concretely over
byte lists (bytes as naturals below 256, characters as ASCII codes); the
JSON layer is kept as explicit function parameters `dumps` / `loads`,
with its round-trip contract assumed pointwise where a theorem needs
it. -/

/-- The character code of base64 sextet `n < 64` in the standard
alphabet `A-Z a-z 0-9 + /`. -/
def b64CharOfSextet (n : ℕ) : ℕ :=
  if n < 26 then 65 + n
  else if n < 52 then 97 + (n - 26)
  else if n < 62 then 48 + (n - 52)
  else if n = 62 then 43
  else 47

/-- The sextet of a character code, `none` outside the alphabet (also for
the pad character `=`, code 61). -/
def sextetOfB64Char (c : ℕ) : Option ℕ :=
  if 65 ≤ c ∧ c ≤ 90 then some (c - 65)
  else if 97 ≤ c ∧ c ≤ 122 then some (c - 97 + 26)
  else if 48 ≤ c ∧ c ≤ 57 then some (c - 48 + 52)
  else if c = 43 then some 62
  else if c = 47 then some 63
  else none

/-- `base64.b64encode` over byte lists: 3-byte groups become 4 alphabet
characters; a trailing 1- or 2-byte group is padded with `=` (61). -/
def b64encode : List ℕ → List ℕ
  | [] => []
  | [a] => [b64CharOfSextet (a / 4), b64CharOfSextet (a % 4 * 16), 61, 61]
  | [a, b] => [b64CharOfSextet (a / 4), b64CharOfSextet (a % 4 * 16 + b / 16),
      b64CharOfSextet (b % 16 * 4), 61]
  | a :: b :: c :: rest =>
      b64CharOfSextet (a / 4) :: b64CharOfSextet (a % 4 * 16 + b / 16)
        :: b64CharOfSextet (b % 16 * 4 + c / 64) :: b64CharOfSextet (c % 64)
        :: b64encode rest

/-- Decode an already-filtered character stream in 4-character groups, pad
characters allowed only at the end of the final group; `none` when the
length is not a multiple of 4 or padding is misplaced. -/
def b64decodeGroups : List ℕ → Option (List ℕ)
  | [] => some []
  | c1 :: c2 :: c3 :: c4 :: rest =>
    match sextetOfB64Char c1, sextetOfB64Char c2 with
    | some w, some x =>
      if c3 = 61 then
        if c4 = 61 ∧ rest = [] then some [w * 4 + x / 16] else none
      else
        match sextetOfB64Char c3 with
        | some y =>
          if c4 = 61 then
            if rest = [] then some [w * 4 + x / 16, x % 16 * 16 + y / 4] else none
          else
            match sextetOfB64Char c4 with
            | some z =>
              match b64decodeGroups rest with
              | some tl =>
                some ((w * 4 + x / 16) :: (x % 16 * 16 + y / 4) :: (y % 4 * 64 + z) :: tl)
              | none => none
            | none => none
        | none => none
    | _, _ => none
  | _ => none

/-- `base64.b64decode`: characters outside the alphabet and distinct from
the pad are discarded first (Python's default non-validating behaviour),
then the stream is decoded in groups; a failure models the raised
`binascii.Error`. -/
def b64decode (s : List ℕ) : Option (List ℕ) :=
  b64decodeGroups (s.filter (fun c => (sextetOfB64Char c).isSome || c == 61))

/-- `encode_face_data` (`biometric_utils.py` lines 14-34): JSON-serialise
the encoding to UTF-8 bytes (`json.dumps(...).encode('utf-8')`, the
external parameter `dumps`), then base64, producing opaque text. -/
def encode_face_data (dumps : List ℚ → List ℕ) (face_encoding : List ℚ) : List ℕ :=
  b64encode (dumps face_encoding)

/-- `decode_face_data` (`biometric_utils.py` lines 36-60): falsy (empty)
input returns `None`; otherwise base64-decode then JSON-parse (the UTF-8
decode plus `json.loads`, the external parameter `loads`); any failure
yields `None` (the `except` branch) rather than an exception. -/
def decode_face_data (loads : List ℕ → Option (List ℚ)) (encoded_face : List ℕ) :
    Option (List ℚ) :=
  if encoded_face = [] then none
  else
    match b64decode encoded_face with
    | none => none
    | some face_json => loads face_json

/-! ## Concrete inputs used by witnesses and counterexamples -/

/-- A minutia at the origin with quality 1. -/
def pt0 : MinutiaPoint := ⟨0, 0, 0, .ridge_ending, 1⟩

/-- Deduplication example: quality 1/2 point at x = 0. -/
def ptA : MinutiaPoint := ⟨0, 0, 0, .ridge_ending, 1/2⟩

/-- Deduplication example: quality 1/2 point at x = 6 (more than 5 from
`ptA`). -/
def ptB : MinutiaPoint := ⟨6, 0, 0, .ridge_ending, 1/2⟩

/-- Deduplication example: quality 9/10 point at x = 4 (within 5 of both
`ptA` and `ptB`). -/
def ptC : MinutiaPoint := ⟨4, 0, 0, .ridge_ending, 9/10⟩

/-- A one-point template used in witnesses. -/
def exTemplate : FingerprintTemplate := ⟨[pt0], 1, "t0", "1.0", none⟩

/-- A sequence of fingerprint sample outcomes whose second sample (index 1,
i.e. sample 2 of 3) fails with low quality. -/
def exFPOutcome : ℕ → FPSampleOutcome :=
  fun i => if i = 1 then .captureFail "Poor fingerprint quality" else .ok exTemplate

/-- A sequence of face sample outcomes whose second sample fails. -/
def exFaceOutcome : ℕ → FaceSampleOutcome :=
  fun i =>
    if i = 1 then .captureFail "No face detected in captured frame"
    else .ok (List.replicate 128 0)

/-- A trivial stand-in JSON serialiser for the serialisation witness:
every encoding maps to the two UTF-8 bytes of the text `[]`. -/
def exDumps : List ℚ → List ℕ := fun _ => [91, 93]

/-- A stand-in JSON parser for the serialisation witness, the pointwise
inverse of `exDumps` at the witness input `[1/2]`. -/
def exLoads : List ℕ → Option (List ℚ) := fun _ => some [1/2]

/-! ## The matching procedure as the claim words it

The claim describes the greedy count as matching each `points1` point to an
as-yet-unmatched `points2` point, each `points2` point consumed by at most
one match.  This second definition follows those words (not the source),
for comparison with the source embedding `calculate_minutiae_similarity`. -/

/-- Greedy count per the claim's words: first found match wins and the
matched `points2` point is removed before the remaining `points1` points
are processed. -/
def claimedGreedyCount : List MinutiaPoint → List MinutiaPoint → ℕ
  | [], _ => 0
  | p :: rest, points2 =>
    match points2.findIdx? (fun q => minutiaeMatch p q) with
    | some j => 1 + claimedGreedyCount rest (points2.eraseIdx j)
    | none => claimedGreedyCount rest points2

/-- Similarity per the claim's words: consumed-match count over the smaller
cardinality. -/
def claimedSimilarity (points1 points2 : List MinutiaPoint) : ℚ :=
  ((claimedGreedyCount points1 points2 : ℕ) : ℚ)
    / ((min points1.length points2.length : ℕ) : ℚ)

/-!
# Theorems

Helper lemmas first, then one theorem per claim (with witness or
counterexample theorems where required).
-/

/-- The match-counting fold of `_calculate_minutiae_similarity` counts the
points of `points1` that have at least one matching point in `points2`. -/
theorem minutiae_fold_eq_countP (points2 : List MinutiaPoint) :
    ∀ (points1 : List MinutiaPoint) (init : ℕ),
      points1.foldl
        (fun acc p1 =>
          match points2.find? (fun p2 => minutiaeMatch p1 p2) with
          | some _ => acc + 1
          | none => acc) init
      = init + points1.countP (fun p1 => points2.any (fun p2 => minutiaeMatch p1 p2)) := by
  intro points1
  induction points1 with
  | nil => intro init; simp
  | cons p rest ih =>
    intro init
    simp only [List.foldl_cons, List.countP_cons]
    cases hf : points2.find? (fun p2 => minutiaeMatch p p2) with
    | none =>
      have hany : points2.any (fun p2 => minutiaeMatch p p2) = false := by
        cases h2 : points2.any (fun p2 => minutiaeMatch p p2) with
        | false => rfl
        | true =>
          exfalso
          rcases List.any_eq_true.mp h2 with ⟨q, hq, hmq⟩
          have hnone := List.find?_eq_none.mp hf q hq
          simp [hmq] at hnone
      rw [ih init]
      simp [hany]
    | some q =>
      have hany : points2.any (fun p2 => minutiaeMatch p p2) = true := by
        exact List.any_eq_true.mpr ⟨q, List.mem_of_find?_eq_some hf, List.find?_some hf⟩
      rw [ih (init + 1)]
      simp [hany]
      omega

/-- On non-empty inputs the similarity equals the number of `points1`
members with some tolerance/type-compatible `points2` member, divided by
the smaller cardinality. -/
theorem calculate_minutiae_similarity_eq (points1 points2 : List MinutiaPoint)
    (h1 : points1 ≠ []) (h2 : points2 ≠ []) :
    calculate_minutiae_similarity points1 points2
      = ((points1.countP (fun p1 => points2.any (fun p2 => minutiaeMatch p1 p2)) : ℕ) : ℚ)
        / ((min points1.length points2.length : ℕ) : ℚ) := by
  have hmin : min points1.length points2.length ≠ 0 := by
    have g1 := List.length_pos.mpr h1
    have g2 := List.length_pos.mpr h2
    omega
  simp only [calculate_minutiae_similarity]
  rw [if_neg (by push_neg; exact ⟨h1, h2⟩), minutiae_fold_eq_countP points2 points1 0,
    if_neg hmin]
  simp

/-- C2 (corrected), counterexample: with `points1 = [pt0, pt0]` and
`points2 = [pt0]` the similarity is `2`, outside `[0, 1]`: the inner loop
never consumes a `points2` point, so both copies of `pt0` match the single
point and the count is divided by `min = 1`. -/
theorem minutiae_similarity_exceeds_one :
    calculate_minutiae_similarity [pt0, pt0] [pt0] = 2
    ∧ ¬(calculate_minutiae_similarity [pt0, pt0] [pt0] ≤ 1) := by
  have h : calculate_minutiae_similarity [pt0, pt0] [pt0] = 2 := by
    norm_num [calculate_minutiae_similarity, minutiaeMatch, pt0, List.find?]
    simp
  exact ⟨h, by rw [h]; norm_num⟩

/-- C2 (amended): the fingerprint similarity is nonnegative, is `0` when
either minutiae list is empty, and lies in `[0, 1]` whenever
`|points1| ≤ |points2|` (when `|points1| > |points2|` it can exceed `1`
because matched `points2` points are not consumed). -/
theorem minutiae_similarity_bounds (points1 points2 : List MinutiaPoint) :
    0 ≤ calculate_minutiae_similarity points1 points2
    ∧ ((points1 = [] ∨ points2 = []) → calculate_minutiae_similarity points1 points2 = 0)
    ∧ (points1.length ≤ points2.length → calculate_minutiae_similarity points1 points2 ≤ 1) := by
  by_cases h : points1 = [] ∨ points2 = []
  · have hz : calculate_minutiae_similarity points1 points2 = 0 := by
      rw [calculate_minutiae_similarity, if_pos h]
    exact ⟨by rw [hz], fun _ => hz, fun _ => by rw [hz]; norm_num⟩
  · push_neg at h
    rw [calculate_minutiae_similarity_eq points1 points2 h.1 h.2]
    have hlen1 := List.length_pos.mpr h.1
    have hlen2 := List.length_pos.mpr h.2
    have hminpos : (0 : ℚ) < ((min points1.length points2.length : ℕ) : ℚ) := by
      have hm : 0 < min points1.length points2.length := by omega
      exact_mod_cast hm
    refine ⟨by positivity, fun hc => absurd hc (by push_neg; exact h), fun hlen => ?_⟩
    rw [div_le_one hminpos]
    have hcount : points1.countP (fun p1 => points2.any (fun p2 => minutiaeMatch p1 p2))
        ≤ min points1.length points2.length := by
      have := List.countP_le_length
        (p := fun p1 => points2.any (fun p2 => minutiaeMatch p1 p2)) (l := points1)
      omega
    exact_mod_cast hcount

/-- C2 (witness): the amended bounds at concrete inputs: similarity of
`[pt0]` against the empty list is `0`, and similarity of `[pt0]` against
`[pt0, pt0]` (smaller list first) is at most `1`. -/
theorem minutiae_similarity_bounds_witness :
    calculate_minutiae_similarity [pt0] [] = 0
    ∧ calculate_minutiae_similarity [pt0] [pt0, pt0] ≤ 1 :=
  ⟨(minutiae_similarity_bounds [pt0] []).2.1 (Or.inr rfl),
   (minutiae_similarity_bounds [pt0] [pt0, pt0]).2.2 (by decide)⟩

/-- C3 (corrected), counterexample: on `points1 = [pt0, pt0]`,
`points2 = [pt0]` the source similarity is `2` while the claim's
consume-each-`points2`-point-once procedure gives `1`: the source never
marks a `points2` point as matched. -/
theorem minutiae_similarity_consumption_counterexample :
    calculate_minutiae_similarity [pt0, pt0] [pt0] = 2
    ∧ claimedSimilarity [pt0, pt0] [pt0] = 1
    ∧ calculate_minutiae_similarity [pt0, pt0] [pt0]
        ≠ claimedSimilarity [pt0, pt0] [pt0] := by
  have hcode : calculate_minutiae_similarity [pt0, pt0] [pt0] = 2 := by
    norm_num [calculate_minutiae_similarity, minutiaeMatch, pt0, List.find?]
    simp
  have hclaim : claimedSimilarity [pt0, pt0] [pt0] = 1 := by
    norm_num [claimedSimilarity, claimedGreedyCount, minutiaeMatch, pt0, List.findIdx?]
  refine ⟨hcode, hclaim, ?_⟩
  rw [hcode, hclaim]
  norm_num

/-- C3 (amended): on non-empty minutiae lists the similarity equals
`matches / min(|P1|, |P2|)` where `matches` counts the points of `P1`
having at least one point of `P2` within 10 distance units (squared
distance at most 100), within 30 degrees circular angular distance, and of
identical type — `P2` points are NOT consumed and may serve several `P1`
points; a `P1` point with no such compatible `P2` point never counts. -/
theorem minutiae_similarity_greedy_reuse (points1 points2 : List MinutiaPoint)
    (h1 : points1 ≠ []) (h2 : points2 ≠ []) :
    calculate_minutiae_similarity points1 points2
      = ((points1.countP
            (fun p1 => decide (∃ p2 ∈ points2, minutiaeMatch p1 p2 = true)) : ℕ) : ℚ)
        / ((min points1.length points2.length : ℕ) : ℚ) := by
  rw [calculate_minutiae_similarity_eq points1 points2 h1 h2]
  have hfun : (fun p1 => points2.any (fun p2 => minutiaeMatch p1 p2))
      = (fun p1 => decide (∃ p2 ∈ points2, minutiaeMatch p1 p2 = true)) := by
    funext p1
    by_cases hp : ∃ p2 ∈ points2, minutiaeMatch p1 p2 = true
    · rw [decide_eq_true hp]
      exact List.any_eq_true.mpr hp
    · rw [decide_eq_false hp]
      exact List.any_eq_false.mpr (by
        intro q hq hm
        exact hp ⟨q, hq, hm⟩)
  rw [hfun]

/-- C3 (witness): the amended characterisation at the concrete
counterexample input. -/
theorem minutiae_similarity_greedy_reuse_witness :
    calculate_minutiae_similarity [pt0, pt0] [pt0]
      = ((([pt0, pt0] : List MinutiaPoint).countP
            (fun p1 => decide (∃ p2 ∈ ([pt0] : List MinutiaPoint), minutiaeMatch p1 p2 = true)) : ℕ) : ℚ)
        / ((min ([pt0, pt0] : List MinutiaPoint).length ([pt0] : List MinutiaPoint).length : ℕ) : ℚ) :=
  minutiae_similarity_greedy_reuse [pt0, pt0] [pt0]
    (List.cons_ne_nil _ _) (List.cons_ne_nil _ _)

/-- C4: the overall verification status over the four boolean combinations
of (face matched, fingerprint matched) is approved / partial / partial /
rejected, identically in `biometric_enhanced.py` and `biometric.py`, and
the mapping is symmetric under swapping the two modalities. -/
theorem verification_status_table :
    verify_student_status true true = "approved"
    ∧ verify_student_status true false = "partial"
    ∧ verify_student_status false true = "partial"
    ∧ verify_student_status false false = "rejected"
    ∧ overall_status true true = "approved"
    ∧ overall_status true false = "partial"
    ∧ overall_status false true = "partial"
    ∧ overall_status false false = "rejected"
    ∧ (∀ f fp, verify_student_status f fp = verify_student_status fp f)
    ∧ (∀ f fp, verify_student_status f fp = overall_status f fp) := by
  refine ⟨rfl, rfl, rfl, rfl, rfl, rfl, rfl, rfl, ?_, ?_⟩ <;> decide

/-- C6: fusing a single template is the identity: `_combine_templates`
returns the one-element list's template unchanged, applying no merge or
deduplication logic. -/
theorem combine_templates_singleton (now : String) (t : FingerprintTemplate) :
    combine_templates now [t] = t := rfl

/-- The length normalisation of `extract_face_encoding` always produces
exactly 128 entries. -/
theorem normalize_encoding_length_length (encoding : List ℚ) :
    (normalize_encoding_length encoding).length = 128 := by
  simp only [normalize_encoding_length]
  split
  · simp only [List.length_take]
    omega
  · split
    · simp only [List.length_append, List.length_replicate]
      omega
    · omega

/-- C7: whenever `extract_face_encoding` succeeds (landmarks were found),
the returned encoding has length exactly 128, whatever the number of
detected landmark coordinates: the raw coordinate list is truncated when
longer and zero-padded when shorter. -/
theorem extract_face_encoding_length (face_landmarks : Option (List (ℚ × ℚ × ℚ)))
    (enc : List ℚ) (h : extract_face_encoding face_landmarks = some enc) :
    enc.length = 128 := by
  cases face_landmarks with
  | none => simp [extract_face_encoding] at h
  | some landmarks =>
    simp only [extract_face_encoding, Option.some.injEq] at h
    subst h
    exact normalize_encoding_length_length _

/-- C7 (witness): on an empty landmark list the extraction succeeds and the
encoding (all zero padding) has length 128. -/
theorem extract_face_encoding_length_witness :
    ∃ enc, extract_face_encoding (some []) = some enc ∧ enc.length = 128 :=
  ⟨_, rfl, extract_face_encoding_length (some []) _ rfl⟩

/-- C1 (corrected), counterexample: with non-empty encodings `[0]` and
`[1]` (zero norm on the left) the returned similarity is `1/2`, not `0`:
the `(similarity + 1) / 2` remap is applied after the zero-norm guard sets
the raw cosine to `0.0`. -/
theorem face_zero_norm_counterexample :
    (compare_face_encodings intSqrt [0] [1] (3/5)).similarity = 1/2
    ∧ (compare_face_encodings intSqrt [0] [1] (3/5)).similarity ≠ 0 := by
  have h : (compare_face_encodings intSqrt [0] [1] (3/5)).similarity = 1/2 := by
    norm_num [compare_face_encodings, sumSq, dotProduct, intSqrt]
  exact ⟨h, by rw [h]; norm_num⟩

/-- C1 (amended): for every pair of NON-EMPTY encodings where either norm
is zero, the comparison raises no division error: the guard sets the raw
cosine to `0.0` and the returned similarity is `(0 + 1) / 2 = 1/2` (not
`0.0`), with `success = true`.  (Empty encodings instead take the
invalid-input branch, which does return similarity `0.0`.) -/
theorem face_zero_norm_similarity (sqrt : ℚ → ℚ) (encoding1 encoding2 : List ℚ)
    (threshold : ℚ) (h1 : encoding1 ≠ []) (h2 : encoding2 ≠ [])
    (hz : sqrt (sumSq encoding1) = 0 ∨ sqrt (sumSq encoding2) = 0) :
    (compare_face_encodings sqrt encoding1 encoding2 threshold).success = true
    ∧ (compare_face_encodings sqrt encoding1 encoding2 threshold).similarity = 1/2 := by
  have hcomp : compare_face_encodings sqrt encoding1 encoding2 threshold
      = ⟨true, ((0 : ℚ) + 1) / 2, decide ((((0 : ℚ) + 1) / 2) > threshold)⟩ := by
    simp only [compare_face_encodings]
    rw [if_neg (by push_neg; exact ⟨h1, h2⟩), if_pos hz]
  rw [hcomp]
  norm_num

/-- C1 (witness): the amended statement at the concrete zero-norm input. -/
theorem face_zero_norm_similarity_witness :
    (compare_face_encodings intSqrt [0] [1] (3/5)).success = true
    ∧ (compare_face_encodings intSqrt [0] [1] (3/5)).similarity = 1/2 :=
  face_zero_norm_similarity intSqrt [0] [1] (3/5)
    (List.cons_ne_nil _ _) (List.cons_ne_nil _ _)
    (Or.inl (by norm_num [sumSq, intSqrt]))

/-- C10: both scorers compare strictly: on valid inputs (`success = true`)
the match flag holds exactly when similarity is strictly greater than the
threshold, so a similarity exactly equal to the threshold yields
`match = false`, for every threshold (including the defaults 0.6 and
0.7). -/
theorem match_strict_threshold (sqrt : ℚ → ℚ) (encoding1 encoding2 : List ℚ)
    (tface : ℚ) (template1 template2 : Option FingerprintTemplate) (tfp : ℚ) :
    ((compare_face_encodings sqrt encoding1 encoding2 tface).success = true →
      (((compare_face_encodings sqrt encoding1 encoding2 tface).matched = true)
        ↔ (compare_face_encodings sqrt encoding1 encoding2 tface).similarity > tface)
      ∧ ((compare_face_encodings sqrt encoding1 encoding2 tface).similarity = tface →
          (compare_face_encodings sqrt encoding1 encoding2 tface).matched = false))
    ∧ ((compare_fingerprint_templates template1 template2 tfp).success = true →
      (((compare_fingerprint_templates template1 template2 tfp).matched = true)
        ↔ (compare_fingerprint_templates template1 template2 tfp).similarity > tfp)
      ∧ ((compare_fingerprint_templates template1 template2 tfp).similarity = tfp →
          (compare_fingerprint_templates template1 template2 tfp).matched = false)) := by
  constructor
  · by_cases he : encoding1 = [] ∨ encoding2 = []
    · intro hsucc
      exfalso
      simp only [compare_face_encodings, if_pos he] at hsucc
      exact Bool.false_ne_true hsucc
    · intro _
      simp only [compare_face_encodings, if_neg he]
      refine ⟨by simp [decide_eq_true_eq], fun heq => ?_⟩
      simp only [heq]
      exact decide_eq_false (lt_irrefl tface)
  · match template1, template2 with
    | none, _ => intro hsucc; exact absurd hsucc (by simp [compare_fingerprint_templates])
    | some t1, none => intro hsucc; exact absurd hsucc (by simp [compare_fingerprint_templates])
    | some t1, some t2 =>
      by_cases he : t1.minutiae_points = [] ∨ t2.minutiae_points = []
      · intro hsucc
        exfalso
        simp only [compare_fingerprint_templates, if_pos he] at hsucc
        exact Bool.false_ne_true hsucc
      · intro _
        simp only [compare_fingerprint_templates, if_neg he]
        refine ⟨by simp [decide_eq_true_eq], fun heq => ?_⟩
        simp only [heq]
        exact decide_eq_false (lt_irrefl tfp)

/-- C10 (witness): at identical one-entry inputs with the threshold set to
the attained similarity `1`, both scorers return `match = false`. -/
theorem match_strict_threshold_witness :
    (compare_face_encodings intSqrt [1] [1] 1).matched = false
    ∧ (compare_fingerprint_templates (some exTemplate) (some exTemplate) 1).matched = false := by
  have hface := (match_strict_threshold intSqrt [1] [1] 1
    (some exTemplate) (some exTemplate) 1).1
  have hfp := (match_strict_threshold intSqrt [1] [1] 1
    (some exTemplate) (some exTemplate) 1).2
  have hfsucc : (compare_face_encodings intSqrt [1] [1] 1).success = true := by
    norm_num [compare_face_encodings]
  have hfsim : (compare_face_encodings intSqrt [1] [1] 1).similarity = 1 := by
    norm_num [compare_face_encodings, sumSq, dotProduct, intSqrt]
  have hpsucc : (compare_fingerprint_templates (some exTemplate) (some exTemplate) 1).success = true := by
    norm_num [compare_fingerprint_templates, exTemplate]
  have hpsim : (compare_fingerprint_templates (some exTemplate) (some exTemplate) 1).similarity = 1 := by
    norm_num [compare_fingerprint_templates, exTemplate, calculate_minutiae_similarity,
      minutiaeMatch, pt0, List.find?]
  exact ⟨(hface hfsucc).2 hfsim, (hfp hpsucc).2 hpsim⟩

/-- `ptB` (x = 6) is more than 5 units from `ptA` (x = 0). -/
theorem near_ptB_ptA : isNearDuplicate ptB ptA = false := by
  simp only [isNearDuplicate, ptA, ptB]
  exact decide_eq_false (by norm_num)

/-- `ptA` is more than 5 units from `ptB` (symmetric orientation). -/
theorem near_ptA_ptB : isNearDuplicate ptA ptB = false := by
  simp only [isNearDuplicate, ptA, ptB]
  exact decide_eq_false (by norm_num)

/-- `ptC` (x = 4) is within 5 units of `ptA` (x = 0). -/
theorem near_ptC_ptA : isNearDuplicate ptC ptA = true := by
  simp only [isNearDuplicate, ptA, ptC]
  exact decide_eq_true (by norm_num)

/-- `ptC` (x = 4) is within 5 units of `ptB` (x = 6). -/
theorem near_ptC_ptB : isNearDuplicate ptC ptB = true := by
  simp only [isNearDuplicate, ptB, ptC]
  exact decide_eq_true (by norm_num)

/-- C5 (corrected), counterexample: deduplicating `[ptA, ptB, ptC]` gives
`[ptB, ptC]` — `ptC` (higher quality) replaces `ptA` but lands within 5
units of the already-kept `ptB` — and a second pass collapses that to
`[ptC]`, so dedup applied to its own output changes the point set. -/
theorem dedup_not_idempotent_counterexample :
    remove_duplicate_minutiae [ptA, ptB, ptC] = [ptB, ptC]
    ∧ remove_duplicate_minutiae (remove_duplicate_minutiae [ptA, ptB, ptC]) = [ptC]
    ∧ remove_duplicate_minutiae (remove_duplicate_minutiae [ptA, ptB, ptC])
        ≠ remove_duplicate_minutiae [ptA, ptB, ptC] := by
  have hqCA : ptC.quality > ptA.quality := by norm_num [ptA, ptC]
  have hqCB : ptC.quality > ptB.quality := by norm_num [ptB, ptC]
  have h1 : remove_duplicate_minutiae [ptA, ptB, ptC] = [ptB, ptC] := by
    simp [remove_duplicate_minutiae, List.find?, near_ptB_ptA, near_ptC_ptA, hqCA]
  have h2 : remove_duplicate_minutiae [ptB, ptC] = [ptC] := by
    simp [remove_duplicate_minutiae, List.find?, near_ptC_ptB, hqCB]
  refine ⟨h1, by rw [h1, h2], ?_⟩
  rw [h1, h2]
  intro hcontr
  have hlen := congrArg List.length hcontr
  simp at hlen

/-- Distances are symmetric, so the duplicate test is too. -/
theorem isNearDuplicate_symm (p q : MinutiaPoint) :
    isNearDuplicate p q = isNearDuplicate q p := by
  simp only [isNearDuplicate]
  rw [show (p.x - q.x) * (p.x - q.x) + (p.y - q.y) * (p.y - q.y)
      = (q.x - p.x) * (q.x - p.x) + (q.y - p.y) * (q.y - p.y) by ring]

/-- The dedup fold leaves its accumulator and input untouched when no point
of the input is within tolerance of the accumulator or of an earlier input
point. -/
theorem dedup_foldl_separated :
    ∀ (l : List MinutiaPoint) (acc : List MinutiaPoint),
      (∀ u ∈ acc, ∀ p ∈ l, isNearDuplicate p u = false) →
      l.Pairwise (fun p q => isNearDuplicate q p = false) →
      l.foldl
        (fun unique_points point =>
          match unique_points.find? (fun u => isNearDuplicate point u) with
          | some u =>
            if point.quality > u.quality then (unique_points.erase u) ++ [point]
            else unique_points
          | none => unique_points ++ [point]) acc
      = acc ++ l := by
  intro l
  induction l with
  | nil => intro acc _ _; simp
  | cons p rest ih =>
    intro acc hacc hpw
    rw [List.foldl_cons]
    have hfind : acc.find? (fun u => isNearDuplicate p u) = none := by
      apply List.find?_eq_none.mpr
      intro u hu
      simp [hacc u hu p (by simp)]
    rw [hfind]
    rcases List.pairwise_cons.mp hpw with ⟨hhead, htail⟩
    rw [ih (acc ++ [p]) ?_ htail]
    · simp
    · intro u hu q hq
      rcases List.mem_append.mp hu with hual | hup
      · exact hacc u hual q (List.mem_cons_of_mem p hq)
      · rw [List.mem_singleton.mp hup]
        exact hhead q hq

/-- C5 (amended): deduplication is the identity — hence idempotent — on
lists whose points are pairwise more than 5 units apart; in general it is
NOT idempotent, because the keep-the-higher-quality replacement can leave
two points within tolerance in the output, which a second pass then
merges. -/
theorem dedup_identity_on_separated (points : List MinutiaPoint)
    (h : points.Pairwise (fun p q => isNearDuplicate p q = false)) :
    remove_duplicate_minutiae points = points := by
  have h2 : points.Pairwise (fun p q => isNearDuplicate q p = false) :=
    h.imp (fun hab => by rw [isNearDuplicate_symm]; exact hab)
  rw [remove_duplicate_minutiae, dedup_foldl_separated points [] (by simp) h2]
  simp

/-- C5 (witness): `[ptA, ptB]` is pairwise separated and dedup leaves it
unchanged. -/
theorem dedup_identity_on_separated_witness :
    remove_duplicate_minutiae [ptA, ptB] = [ptA, ptB] :=
  dedup_identity_on_separated [ptA, ptB] (by
    refine List.pairwise_cons.mpr ⟨?_, List.pairwise_singleton _ _⟩
    intro q hq
    rw [List.mem_singleton.mp hq]
    exact near_ptA_ptB)

/-- If the fingerprint sample loop returns successfully, every sample index
in range had a successful outcome. -/
theorem enroll_fingerprint_loop_all_ok (outcome : ℕ → FPSampleOutcome) (n : ℕ) :
    ∀ (k i : ℕ) (templates res : List FingerprintTemplate),
      n - i ≤ k →
      enroll_fingerprint_loop outcome n i templates = .ok res →
      ∀ j, i ≤ j → j < n → (outcome j).isOk = true := by
  intro k
  induction k with
  | zero =>
    intro i templates res hk _ j hij hjn
    omega
  | succ k ih =>
    intro i templates res hk hloop j hij hjn
    rw [enroll_fingerprint_loop] at hloop
    by_cases hi : i < n
    · rw [dif_pos hi] at hloop
      cases hout : outcome i with
      | captureFail e =>
        rw [hout] at hloop
        exact absurd hloop (by simp)
      | extractFail =>
        rw [hout] at hloop
        exact absurd hloop (by simp)
      | ok t =>
        rw [hout] at hloop
        by_cases hji : j = i
        · rw [hji, hout]
          rfl
        · exact ih (i + 1) (templates ++ [t]) res (by omega) hloop j (by omega) hjn
    · omega

/-- If the face sample loop returns successfully, every sample index in
range had a successful outcome. -/
theorem enroll_face_loop_all_ok (outcome : ℕ → FaceSampleOutcome) (n : ℕ) :
    ∀ (k i : ℕ) (encodings res : List (List ℚ)),
      n - i ≤ k →
      enroll_face_loop outcome n i encodings = .ok res →
      ∀ j, i ≤ j → j < n → (outcome j).isOk = true := by
  intro k
  induction k with
  | zero =>
    intro i encodings res hk _ j hij hjn
    omega
  | succ k ih =>
    intro i encodings res hk hloop j hij hjn
    rw [enroll_face_loop] at hloop
    by_cases hi : i < n
    · rw [dif_pos hi] at hloop
      cases hout : outcome i with
      | captureFail e =>
        rw [hout] at hloop
        exact absurd hloop (by simp)
      | extractFail =>
        rw [hout] at hloop
        exact absurd hloop (by simp)
      | ok enc =>
        rw [hout] at hloop
        by_cases hji : j = i
        · rw [hji, hout]
          rfl
        · exact ih (i + 1) (encodings ++ [enc]) res (by omega) hloop j (by omega) hjn
    · omega

/-- C8: enrollment is all-or-nothing: for every number of samples and
every sequence of capture/extract outcomes, if any of the first
`num_samples` fingerprint (resp. face) sample steps fails, the enrollment
result is a failure carrying no fused template (resp. no averaged
encoding): templates from earlier successful samples are discarded, not
partially stored. -/
theorem enrollment_all_or_nothing (now : String)
    (fpOutcome : ℕ → FPSampleOutcome) (faceOutcome : ℕ → FaceSampleOutcome)
    (num_samples : ℕ) :
    ((∃ i, i < num_samples ∧ (fpOutcome i).isOk = false) →
      (enroll_fingerprint now fpOutcome num_samples).success = false
      ∧ (enroll_fingerprint now fpOutcome num_samples).fingerprint_template = none)
    ∧ ((∃ i, i < num_samples ∧ (faceOutcome i).isOk = false) →
      (enroll_face faceOutcome num_samples).success = false
      ∧ (enroll_face faceOutcome num_samples).face_encoding = none) := by
  constructor
  · rintro ⟨i, hi, hbad⟩
    cases hloop : enroll_fingerprint_loop fpOutcome num_samples 0 [] with
    | ok res =>
      have hok := enroll_fingerprint_loop_all_ok fpOutcome num_samples num_samples 0 [] res
        (by omega) hloop i (Nat.zero_le i) hi
      rw [hok] at hbad
      cases hbad
    | error e =>
      exact ⟨by simp [enroll_fingerprint, hloop], by simp [enroll_fingerprint, hloop]⟩
  · rintro ⟨i, hi, hbad⟩
    cases hloop : enroll_face_loop faceOutcome num_samples 0 [] with
    | ok res =>
      have hok := enroll_face_loop_all_ok faceOutcome num_samples num_samples 0 [] res
        (by omega) hloop i (Nat.zero_le i) hi
      rw [hok] at hbad
      cases hbad
    | error e =>
      exact ⟨by simp [enroll_face, hloop], by simp [enroll_face, hloop]⟩

/-- C8 (witness): with sample 2 of 3 failing, both enrollments fail with no
template and no encoding. -/
theorem enrollment_all_or_nothing_witness :
    (enroll_fingerprint "t1" exFPOutcome 3).success = false
    ∧ (enroll_fingerprint "t1" exFPOutcome 3).fingerprint_template = none
    ∧ (enroll_face exFaceOutcome 3).success = false
    ∧ (enroll_face exFaceOutcome 3).face_encoding = none := by
  have h := enrollment_all_or_nothing "t1" exFPOutcome exFaceOutcome 3
  have hfp := h.1 ⟨1, by omega, rfl⟩
  have hface := h.2 ⟨1, by omega, rfl⟩
  exact ⟨hfp.1, hfp.2, hface.1, hface.2⟩

/-- The base64 alphabet maps are mutually inverse on sextets. -/
theorem sextetOfB64Char_b64CharOfSextet :
    ∀ n, n < 64 → sextetOfB64Char (b64CharOfSextet n) = some n := by decide

/-- No sextet encodes to the pad character 61. -/
theorem b64CharOfSextet_ne_pad : ∀ n, n < 64 → b64CharOfSextet n ≠ 61 := by decide

/-- Every character the base64 encoder emits survives the decoder's
discarding filter. -/
theorem b64encode_mem_keep :
    ∀ l : List ℕ, (∀ b ∈ l, b < 256) →
      ∀ c ∈ b64encode l, ((sextetOfB64Char c).isSome || c == 61) = true := by
  intro l
  induction l using b64encode.induct with
  | case1 =>
    intro _ c hc
    simp [b64encode] at hc
  | case2 a =>
    intro hl c hc
    have ha : a < 256 := hl a (by simp)
    simp only [b64encode, List.mem_cons, List.not_mem_nil, or_false] at hc
    rcases hc with rfl | rfl | rfl | rfl
    · rw [sextetOfB64Char_b64CharOfSextet _ (by omega)]; rfl
    · rw [sextetOfB64Char_b64CharOfSextet _ (by omega)]; rfl
    · decide
    · decide
  | case3 a b =>
    intro hl c hc
    have ha : a < 256 := hl a (by simp)
    have hb : b < 256 := hl b (by simp)
    simp only [b64encode, List.mem_cons, List.not_mem_nil, or_false] at hc
    rcases hc with rfl | rfl | rfl | rfl
    · rw [sextetOfB64Char_b64CharOfSextet _ (by omega)]; rfl
    · rw [sextetOfB64Char_b64CharOfSextet _ (by omega)]; rfl
    · rw [sextetOfB64Char_b64CharOfSextet _ (by omega)]; rfl
    · decide
  | case4 a b c rest ih =>
    intro hl d hd
    have ha : a < 256 := hl a (by simp)
    have hb : b < 256 := hl b (by simp)
    have hc : c < 256 := hl c (by simp)
    simp only [b64encode, List.mem_cons] at hd
    rcases hd with rfl | rfl | rfl | rfl | hd
    · rw [sextetOfB64Char_b64CharOfSextet _ (by omega)]; rfl
    · rw [sextetOfB64Char_b64CharOfSextet _ (by omega)]; rfl
    · rw [sextetOfB64Char_b64CharOfSextet _ (by omega)]; rfl
    · rw [sextetOfB64Char_b64CharOfSextet _ (by omega)]; rfl
    · exact ih (fun x hx => hl x (by simp [hx])) d hd

/-- The base64 group decoder inverts the encoder. -/
theorem b64decodeGroups_b64encode :
    ∀ l : List ℕ, (∀ b ∈ l, b < 256) → b64decodeGroups (b64encode l) = some l := by
  intro l
  induction l using b64encode.induct with
  | case1 => intro _; rfl
  | case2 a =>
    intro hl
    have ha : a < 256 := hl a (by simp)
    simp only [b64encode, b64decodeGroups]
    rw [sextetOfB64Char_b64CharOfSextet _ (by omega),
        sextetOfB64Char_b64CharOfSextet _ (by omega)]
    simp only [Option.some.injEq, List.cons.injEq, and_true]
    norm_num
    omega
  | case3 a b =>
    intro hl
    have ha : a < 256 := hl a (by simp)
    have hb : b < 256 := hl b (by simp)
    simp only [b64encode, b64decodeGroups]
    rw [sextetOfB64Char_b64CharOfSextet _ (by omega),
        sextetOfB64Char_b64CharOfSextet _ (by omega)]
    dsimp only
    rw [if_neg (b64CharOfSextet_ne_pad _ (by omega)),
        sextetOfB64Char_b64CharOfSextet _ (by omega)]
    dsimp only
    norm_num
    omega
  | case4 a b c rest ih =>
    intro hl
    have ha : a < 256 := hl a (by simp)
    have hb : b < 256 := hl b (by simp)
    have hc : c < 256 := hl c (by simp)
    simp only [b64encode, b64decodeGroups]
    rw [sextetOfB64Char_b64CharOfSextet _ (by omega),
        sextetOfB64Char_b64CharOfSextet _ (by omega)]
    dsimp only
    rw [if_neg (b64CharOfSextet_ne_pad _ (by omega)),
        sextetOfB64Char_b64CharOfSextet _ (by omega)]
    dsimp only
    rw [if_neg (b64CharOfSextet_ne_pad _ (by omega)),
        sextetOfB64Char_b64CharOfSextet _ (by omega)]
    dsimp only
    rw [ih (fun x hx => hl x (by simp [hx]))]
    simp only [Option.some.injEq, List.cons.injEq, and_true]
    refine ⟨by omega, by omega, by omega⟩

/-- Round trip for the base64 layer. -/
theorem b64decode_b64encode (l : List ℕ) (hl : ∀ b ∈ l, b < 256) :
    b64decode (b64encode l) = some l := by
  rw [b64decode, List.filter_eq_self.mpr (b64encode_mem_keep l hl),
      b64decodeGroups_b64encode l hl]

/-- The base64 encoder yields at least one character group on non-empty
input. -/
theorem b64encode_ne_nil (l : List ℕ) (hl : l ≠ []) : b64encode l ≠ [] := by
  match l with
  | [] => exact absurd rfl hl
  | [a] => simp [b64encode]
  | [a, b] => simp [b64encode]
  | a :: b :: c :: rest => simp [b64encode]

/-- C9: the template serialisation round-trips — for every face encoding
whose JSON text (the external `json.dumps`, whose pointwise round-trip
with `json.loads` is a hypothesis) is a non-empty byte list,
`decode_face_data` recovers the encoding from `encode_face_data`'s
output — and malformed input is reported, not raised: whenever the base64
or JSON stage fails, `decode_face_data` returns `none`. -/
theorem face_data_serialization
    (dumps : List ℚ → List ℕ) (loads : List ℕ → Option (List ℚ))
    (face_encoding : List ℚ) (s bs : List ℕ) :
    ((∀ b ∈ dumps face_encoding, b < 256) → dumps face_encoding ≠ [] →
      loads (dumps face_encoding) = some face_encoding →
      decode_face_data loads (encode_face_data dumps face_encoding) = some face_encoding)
    ∧ (b64decode s = none → decode_face_data loads s = none)
    ∧ (b64decode s = some bs → loads bs = none → decode_face_data loads s = none) := by
  refine ⟨fun hbytes hne hrt => ?_, fun hnone => ?_, fun hsome hload => ?_⟩
  · rw [encode_face_data, decode_face_data, if_neg (b64encode_ne_nil _ hne),
      b64decode_b64encode _ hbytes]
    exact hrt
  · rw [decode_face_data]
    by_cases hs : s = []
    · rw [if_pos hs]
    · rw [if_neg hs, hnone]
  · rw [decode_face_data]
    by_cases hs : s = []
    · rw [if_pos hs]
    · rw [if_neg hs, hsome]
      exact hload

/-- C9 (witness): the round trip at encoding `[1/2]` with the stand-in
JSON layer, and a reported failure on the malformed input `"A"` (one
character is not a valid base64 quantum). -/
theorem face_data_serialization_witness :
    decode_face_data exLoads (encode_face_data exDumps [1/2]) = some [1/2]
    ∧ decode_face_data exLoads [65] = none := by
  constructor
  · exact (face_data_serialization exDumps exLoads [1/2] [] []).1
      (by intro b hb; simp [exDumps] at hb; rcases hb with rfl | rfl <;> omega)
      (by simp [exDumps])
      rfl
  · exact (face_data_serialization exDumps exLoads [1/2] [65] []).2.1 (by rfl)

end SVA
